import Mathlib

/-!
# momentmap-server: a shallow embedding of the two server variants

The repository holds two variants of the same Socket.IO map-social server:
`src/server.js` (embedded below in namespace `ServerA`) and
`src/unnamed/part_000` (namespace `ServerB`).  Times are JavaScript
millisecond timestamps, modelled as `Int`; durations are seconds, also `Int`
(the code multiplies by 1000 and compares).  JS `Map` objects are embedded as
insertion-ordered association lists (`Map.set` overwrites in place, `Map.size`
is the number of keys); JS `Set` objects and arrays as `List`s.
-/

/-- Client-supplied profile payload of the `userJoin` event
(`{id, nickname, avatar, status}`). -/
structure UserData where
  id : String
  nickname : String
  avatar : String
  status : String
  deriving Repr, DecidableEq

/-- A content item ("bubble").  `createdAt` is a millisecond timestamp,
`duration` is in seconds, matching the JS object fields. -/
structure Bubble where
  id : String
  title : String
  body : String
  location : String
  author : String
  createdAt : Int
  duration : Int
  isPrivate : Bool
  deriving Repr, DecidableEq

/-- Operation `m.get(k)` on a JS `Map` embedded as an insertion-ordered association
list. -/
def alGet {α : Type} (m : List (String × α)) (k : String) : Option α :=
  match m with
  | [] => none
  | (k', v) :: rest => if k' = k then some v else alGet rest k

/-- Operation `m.set(k, v)` on a JS `Map`: overwrite in place if the key exists,
otherwise append (JS Maps keep insertion order). -/
def alSet {α : Type} (m : List (String × α)) (k : String) (v : α) :
    List (String × α) :=
  match m with
  | [] => [(k, v)]
  | (k', v') :: rest =>
    if k' = k then (k, v) :: rest else (k', v') :: alSet rest k v

/-- Operation `m.delete(k)` on a JS `Map` (keys are unique, so deleting the first
occurrence deletes the only one). -/
def alErase {α : Type} (m : List (String × α)) (k : String) :
    List (String × α) :=
  match m with
  | [] => []
  | (k', v') :: rest =>
    if k' = k then rest else (k', v') :: alErase rest k

/-- Operation `s.delete(x)` on a JS `Set` (duplicate-free, so removing every occurrence
removes the one element). -/
def setDelete (s : List String) (x : String) : List String :=
  s.filter (fun y => y ≠ x)

namespace ServerA

/-! ## `src/server.js` -/

/-- Presence record stored by `userJoin`:
`{...userData, socketId: socket.id, joinTime: Date.now()}`. -/
structure User where
  data : UserData
  socketId : String
  joinTime : Int
  deriving Repr, DecidableEq

/-- Chatroom message record built by the `chatroomMessage` handler:
`{nickname, content: message, time: <formatted clock string>}`. -/
structure Msg where
  nickname : String
  content : String
  time : String
  deriving Repr, DecidableEq

/-- Private message record built by the `privateMessage` handler:
`{from: socket.id, nickname, content: message, time: <formatted>}`. -/
structure PMsg where
  «from» : String
  nickname : String
  content : String
  time : String
  deriving Repr, DecidableEq

/-- A chatroom: `{id, users: Set, messages: []}`. -/
structure Room where
  id : String
  users : List String
  messages : List Msg
  deriving Repr, DecidableEq

/-- Outbound event payloads of `server.js`. -/
inductive Payload where
  | onlineCount (n : Nat)
  | initialBubbles (bs : List Bubble)
  | newBubble (b : Bubble)
  | bubbleExpired (id : String)
  | chatroomHistory (ms : List Msg)
  | chatroomUserCount (n : Nat)
  | chatroomMessage (m : Msg)
  | privateMessage (m : PMsg)
  deriving Repr, DecidableEq

/-- An outbound emission with its audience: `io.emit` (all), `io.to(room)`
(room members — Socket.IO also puts every socket in a room named by its own
id, which is how `privateMessage` addresses a single socket), or
`socket.emit` (one connection). -/
inductive Emit where
  | all (p : Payload)
  | toRoom (rid : String) (p : Payload)
  | toConn (sid : String) (p : Payload)
  deriving Repr, DecidableEq

/-- The four top-level stores of `server.js`: `onlineUsers` (keyed by
`socket.id`), `allBubbles`, `chatrooms`, `privateChats` (declared and never
written). -/
structure State where
  onlineUsers : List (String × User)
  allBubbles : List Bubble
  chatrooms : List (String × Room)
  privateChats : List (String × List PMsg)
  deriving Repr, DecidableEq

/-- The filter of `GET /api/bubbles` in `server.js`: drop private items,
keep a non-private item while `now < createdAt + duration*1000`. -/
def activeBubbles (now : Int) (bubbles : List Bubble) : List Bubble :=
  bubbles.filter (fun b =>
    if b.isPrivate then false
    else decide (now < b.createdAt + b.duration * 1000))

/-- Handler `userJoin` in `server.js`: store the record under `socket.id`,
broadcast the online count, and send the active bubbles to the joiner. -/
def userJoin (sid : String) (userData : UserData) (now : Int)
    (st : State) : State × List Emit :=
  let onlineUsers := alSet st.onlineUsers sid
    { data := userData, socketId := sid, joinTime := now }
  ({ st with onlineUsers := onlineUsers },
   [Emit.all (.onlineCount onlineUsers.length),
    Emit.toConn sid (.initialBubbles (activeBubbles now st.allBubbles))])

/-- Identifier generated by `publishBubble`:
`'bubble_' + Date.now() + '_' + <random base-36 suffix>`. -/
def genId (now : Int) (rand : String) : String :=
  "bubble_" ++ toString now ++ "_" ++ rand

/-- Handler `publishBubble` in `server.js`: the stored bubble is
`{...bubbleData, id: genId, createdAt: Date.now()}` (the server-assigned
fields overwrite any client-supplied ones), it is pushed and broadcast, and
for a non-private bubble a one-shot timer is scheduled after
`duration * 1000` ms carrying the bubble's id (third component). -/
def publishBubble (bubbleData : Bubble) (now : Int) (rand : String)
    (st : State) : State × List Emit × List (Int × String) :=
  let bubble := { bubbleData with id := genId now rand, createdAt := now }
  ({ st with allBubbles := st.allBubbles ++ [bubble] },
   [Emit.all (.newBubble bubble)],
   if bubble.isPrivate then [] else [(bubble.duration * 1000, bubble.id)])

/-- The body of the `setTimeout` callback in `publishBubble`: look the id up
with `findIndex`; if present, splice it out and broadcast `bubbleExpired`;
if absent, do nothing. -/
def timerFire (id : String) (st : State) : State × List Emit :=
  match st.allBubbles.findIdx? (fun b => b.id = id) with
  | some i =>
    ({ st with allBubbles := st.allBubbles.eraseIdx i },
     [Emit.all (.bubbleExpired id)])
  | none => (st, [])

/-- The `setInterval` sweep in `server.js`: keep private bubbles and
non-private bubbles with `now < createdAt + duration*1000`; the sweep only
logs — it broadcasts nothing. -/
def sweep (now : Int) (st : State) : State × List Emit :=
  ({ st with allBubbles := st.allBubbles.filter (fun b =>
      if b.isPrivate then true
      else decide (now < b.createdAt + b.duration * 1000)) },
   [])

/-- Handler `chatroomMessage` in `server.js`: drop if the room is unknown; otherwise
build the record from the client-supplied nickname, push it, drop the oldest
record when the history exceeds 100, and broadcast to the room. -/
def chatroomMessage (chatroomId message nickname : String)
    (timeStr : String) (st : State) : State × List Emit :=
  match alGet st.chatrooms chatroomId with
  | none => (st, [])
  | some room =>
    let msg : Msg := { nickname := nickname, content := message, time := timeStr }
    let messages := room.messages ++ [msg]
    let messages := if messages.length > 100 then messages.tail else messages
    let chatrooms := alSet st.chatrooms chatroomId { room with messages := messages }
    ({ st with chatrooms := chatrooms },
     [Emit.toRoom chatroomId (.chatroomMessage msg)])

/-- Handler `privateMessage` in `server.js`: build the record, emit it to the room
named `targetUserId` (Socket.IO's per-socket room) and echo it to the
sender's own socket; no store is touched and nothing is queued. -/
def privateMessage (senderSid targetUserId message nickname : String)
    (timeStr : String) (st : State) : State × List Emit :=
  let msg : PMsg :=
    { «from» := senderSid, nickname := nickname, content := message,
      time := timeStr }
  (st,
   [Emit.toRoom targetUserId (.privateMessage msg),
    Emit.toConn senderSid (.privateMessage msg)])

/-- The `chatrooms.forEach` loop of the `disconnect` handler: for each room
whose user set contains the socket, delete it and emit the updated member
count to that room; other rooms are untouched and emit nothing. -/
def disconnectRooms (sid : String) (rooms : List (String × Room)) :
    List (String × Room) × List Emit :=
  match rooms with
  | [] => ([], [])
  | (rid, room) :: rest =>
    let (rest', es) := disconnectRooms sid rest
    if sid ∈ room.users then
      let room' := { room with users := setDelete room.users sid }
      ((rid, room') :: rest',
       Emit.toRoom rid (.chatroomUserCount room'.users.length) :: es)
    else ((rid, room) :: rest', es)

/-- Handler `disconnect` in `server.js`: clean the socket out of every chatroom
(one member-count emission per affected room), delete its `onlineUsers`
entry, and broadcast the new online count. -/
def disconnect (sid : String) (st : State) : State × List Emit :=
  let (rooms', roomEmits) := disconnectRooms sid st.chatrooms
  let onlineUsers := alErase st.onlineUsers sid
  ({ st with chatrooms := rooms', onlineUsers := onlineUsers },
   roomEmits ++ [Emit.all (.onlineCount onlineUsers.length)])

end ServerA

namespace ServerB

/-! ## `src/unnamed/part_000` -/

/-- Presence record stored by `userJoin` in `part_000`:
`{...userData, socketId: socket.id}`, keyed by `userData.id`. -/
structure User where
  data : UserData
  socketId : String
  deriving Repr, DecidableEq

/-- Chatroom message record of `part_000`: `{nickname, avatar, content,
timestamp}` with the nickname and avatar taken from the presence record. -/
structure Msg where
  nickname : String
  avatar : String
  content : String
  timestamp : Int
  deriving Repr, DecidableEq

/-- Friend (direct) message record of `part_000`:
`{from, to, nickname, avatar, content, timestamp}`. -/
structure FMsg where
  «from» : String
  «to» : String
  nickname : String
  avatar : String
  content : String
  timestamp : Int
  deriving Repr, DecidableEq

/-- A chatroom of `part_000`: `{messages: [], members: []}` where members
are participant identifiers kept in an array with an `includes` guard. -/
structure Room where
  messages : List Msg
  members : List String
  deriving Repr, DecidableEq

/-- Outbound event payloads of `part_000`. -/
inductive Payload where
  | onlineCount (n : Nat)
  | allBubbles (bs : List Bubble)
  | newBubble (b : Bubble)
  | bubbleExpired (id : String)
  | chatroomHistory (ms : List Msg)
  | chatroomOnline (n : Nat)
  | chatroomMessage (m : Msg)
  | friendMessage (m : FMsg)
  deriving Repr, DecidableEq

/-- An outbound emission of `part_000` with its audience (`io.emit`,
`io.to(room)`, `socket.emit`, or `io.to(socketId)` for one socket). -/
inductive Emit where
  | all (p : Payload)
  | toRoom (rid : String) (p : Payload)
  | toConn (sid : String) (p : Payload)
  deriving Repr, DecidableEq

/-- The four top-level stores of `part_000`: `onlineUsers` (keyed by the
participant identifier `userData.id`), `allBubbles`, `chatrooms`,
`friendChats` (keyed by the sorted pair of participant ids). -/
structure State where
  onlineUsers : List (String × User)
  allBubbles : List Bubble
  chatrooms : List (String × Room)
  friendChats : List (String × List FMsg)
  deriving Repr, DecidableEq

/-- The filter of `GET /api/bubbles` in `part_000`: keep private items
unconditionally, keep a non-private item while
`createdAt + duration*1000 > now`. -/
def validBubbles (now : Int) (bubbles : List Bubble) : List Bubble :=
  bubbles.filter (fun b =>
    if b.isPrivate then true
    else decide (b.createdAt + b.duration * 1000 > now))

/-- Handler `userJoin` in `part_000`: store the record under `userData.id`
(overwriting any existing binding of that participant), remember
`socket.userId`, broadcast the online count, and send the whole unfiltered
bubble list to the joiner.  Returns the updated `socket.userId` as the last
component. -/
def userJoin (sid : String) (userData : UserData) (st : State) :
    State × List Emit × Option String :=
  let onlineUsers := alSet st.onlineUsers userData.id
    { data := userData, socketId := sid }
  ({ st with onlineUsers := onlineUsers },
   [Emit.all (.onlineCount onlineUsers.length),
    Emit.toConn sid (.allBubbles st.allBubbles)],
   some userData.id)

/-- Handler `publishBubble` in `part_000`: push the client-supplied `bubbleData`
verbatim (no server-side id or timestamp), broadcast it, and for a
non-private bubble schedule the removal timer after `duration * 1000` ms
carrying the client-supplied id. -/
def publishBubble (bubbleData : Bubble) (st : State) :
    State × List Emit × List (Int × String) :=
  ({ st with allBubbles := st.allBubbles ++ [bubbleData] },
   [Emit.all (.newBubble bubbleData)],
   if bubbleData.isPrivate then []
   else [(bubbleData.duration * 1000, bubbleData.id)])

/-- The body of the `setTimeout` callback in `part_000`'s `publishBubble`
(same shape as in `server.js`): remove by id if still present and broadcast
`bubbleExpired`, else do nothing. -/
def timerFire (id : String) (st : State) : State × List Emit :=
  match st.allBubbles.findIdx? (fun b => b.id = id) with
  | some i =>
    ({ st with allBubbles := st.allBubbles.eraseIdx i },
     [Emit.all (.bubbleExpired id)])
  | none => (st, [])

/-- Handler `chatroomMessage` in `part_000`: resolve the sender through
`onlineUsers.get(socket.userId)` and drop silently if unresolved; otherwise
build the record from the registry's nickname and avatar, append it to the
room's history if the room exists (no size cap), and emit to the room. -/
def chatroomMessage (socketUserId : Option String)
    (chatroomId message : String) (now : Int) (st : State) :
    State × List Emit :=
  match socketUserId.bind (alGet st.onlineUsers) with
  | none => (st, [])
  | some user =>
    let msgData : Msg :=
      { nickname := user.data.nickname, avatar := user.data.avatar,
        content := message, timestamp := now }
    let chatrooms :=
      match alGet st.chatrooms chatroomId with
      | some room =>
        alSet st.chatrooms chatroomId { room with messages := room.messages ++ [msgData] }
      | none => st.chatrooms
    ({ st with chatrooms := chatrooms },
     [Emit.toRoom chatroomId (.chatroomMessage msgData)])

/-- The canonical conversation key of `part_000`:
`[socket.userId, friendId].sort().join('_')`. -/
def chatKey (a b : String) : String :=
  if a ≤ b then a ++ "_" ++ b else b ++ "_" ++ a

/-- Handler `friendMessage` in `part_000`: resolve the sender (drop silently if
unresolved), append the record to the canonical-pair conversation log, and
deliver it to the friend's bound socket when the friend is online; there is
no echo to the sender and nothing is queued. -/
def friendMessage (socketUserId : Option String)
    (friendId message : String) (now : Int) (st : State) :
    State × List Emit :=
  match socketUserId with
  | none => (st, [])
  | some uid =>
    match alGet st.onlineUsers uid with
    | none => (st, [])
    | some user =>
      let key := chatKey uid friendId
      let log := (alGet st.friendChats key).getD []
      let msgData : FMsg :=
        { «from» := uid, «to» := friendId, nickname := user.data.nickname,
          avatar := user.data.avatar, content := message, timestamp := now }
      let friendChats := alSet st.friendChats key (log ++ [msgData])
      ({ st with friendChats := friendChats },
       match alGet st.onlineUsers friendId with
       | some friend => [Emit.toConn friend.socketId (.friendMessage msgData)]
       | none => [])

/-- Handler `disconnect` in `part_000`: if the socket had announced, delete its
presence record (keyed by `socket.userId`); always broadcast the online
count.  Chatrooms are not touched. -/
def disconnect (socketUserId : Option String) (st : State) :
    State × List Emit :=
  let onlineUsers :=
    match socketUserId with
    | some uid => alErase st.onlineUsers uid
    | none => st.onlineUsers
  ({ st with onlineUsers := onlineUsers },
   [Emit.all (.onlineCount onlineUsers.length)])

end ServerB

/-! ## Helper lemmas about the JS collection embeddings -/

theorem alGet_alSet_self {α : Type} (m : List (String × α)) (k : String)
    (v : α) : alGet (alSet m k v) k = some v := by
  induction m with
  | nil => simp [alSet, alGet]
  | cons p rest ih =>
    obtain ⟨k', v'⟩ := p
    by_cases h : k' = k <;> simp [alSet, alGet, h, ih]

theorem alSet_length_of_isSome {α : Type} (m : List (String × α))
    (k : String) (v : α) (h : (alGet m k).isSome) :
    (alSet m k v).length = m.length := by
  induction m with
  | nil => simp [alGet] at h
  | cons p rest ih =>
    obtain ⟨k', v'⟩ := p
    by_cases hk : k' = k
    · simp [alSet, hk]
    · simp only [alGet, hk, if_false] at h
      simp [alSet, hk, ih h]

theorem alSet_length_of_none {α : Type} (m : List (String × α))
    (k : String) (v : α) (h : alGet m k = none) :
    (alSet m k v).length = m.length + 1 := by
  induction m with
  | nil => simp [alSet]
  | cons p rest ih =>
    obtain ⟨k', v'⟩ := p
    by_cases hk : k' = k
    · simp [alGet, hk] at h
    · simp only [alGet, hk, if_false] at h
      simp [alSet, hk, ih h]

theorem findIdx?_some_bound {α : Type} (p : α → Bool) :
    ∀ (l : List α) (s i : Nat), List.findIdx? p l s = some i → i < s + l.length := by
  intro l
  induction l with
  | nil => intro s i h; simp [List.findIdx?] at h
  | cons a l ih =>
    intro s i h
    rw [List.findIdx?_cons] at h
    by_cases hp : p a = true
    · rw [if_pos hp] at h
      injection h with h
      simp only [List.length_cons]
      omega
    · simp only [hp, if_false] at h
      have := ih (s + 1) i h
      simp only [List.length_cons]
      omega

theorem findIdx?_isSome_of_mem {α : Type} (p : α → Bool) :
    ∀ (l : List α) (s : Nat), (∃ x ∈ l, p x = true) →
      (List.findIdx? p l s).isSome := by
  intro l
  induction l with
  | nil =>
    rintro s ⟨x, hx, _⟩
    cases hx
  | cons a l ih =>
    rintro s ⟨x, hx, hpx⟩
    rw [List.findIdx?_cons]
    by_cases hp : p a = true
    · simp [hp]
    · simp only [hp, if_false]
      rcases List.mem_cons.mp hx with rfl | hmem
      · exact absurd hpx hp
      · simpa using ih (s + 1) ⟨x, hmem, hpx⟩

/-! ## Claim theorems -/

/-- C10: each run of the periodic sweep (`server.js`) removes from the
content store exactly the non-private bubbles whose validity window has
closed at the sweep's observation time; every private bubble and every
still-valid bubble remains, in its original relative order, and the
presence registry (`onlineUsers`), room directory (`chatrooms`) and
conversation logs (`privateChats`) are untouched; the sweep emits
nothing. -/
theorem claim_C10_sweep_exact_and_frame (now : Int) (st : ServerA.State) :
    (∀ b : Bubble, b ∈ (ServerA.sweep now st).1.allBubbles ↔
      (b ∈ st.allBubbles ∧
        (b.isPrivate = true ∨ now < b.createdAt + b.duration * 1000))) ∧
    (ServerA.sweep now st).1.allBubbles.Sublist st.allBubbles ∧
    (ServerA.sweep now st).1.onlineUsers = st.onlineUsers ∧
    (ServerA.sweep now st).1.chatrooms = st.chatrooms ∧
    (ServerA.sweep now st).1.privateChats = st.privateChats ∧
    (ServerA.sweep now st).2 = [] := by
  refine ⟨?_, List.filter_sublist _, rfl, rfl, rfl, rfl⟩
  intro b
  simp only [ServerA.sweep, List.mem_filter]
  constructor
  · rintro ⟨hb, hcond⟩
    refine ⟨hb, ?_⟩
    cases hp : b.isPrivate
    · rw [hp] at hcond
      simp at hcond
      exact Or.inr hcond
    · exact Or.inl rfl
  · rintro ⟨hb, hcond⟩
    refine ⟨hb, ?_⟩
    cases hp : b.isPrivate
    · rcases hcond with h | h
      · rw [hp] at h
        cases h
      · simp [h]
    · simp

/-- C4: a non-private bubble in the store appears in the active snapshot of
either variant at a query time `now` at or after its creation instant if
and only if `createdAt ≤ now < createdAt + duration * 1000`; the window is
half-open (present strictly before the boundary, absent at and after it). -/
theorem claim_C4_halfopen_window (bs : List Bubble) (b : Bubble) (now : Int)
    (hpriv : b.isPrivate = false) (hmem : b ∈ bs)
    (hnow : b.createdAt ≤ now) :
    (b ∈ ServerA.activeBubbles now bs ↔
      (b.createdAt ≤ now ∧ now < b.createdAt + b.duration * 1000)) ∧
    (b ∈ ServerB.validBubbles now bs ↔
      (b.createdAt ≤ now ∧ now < b.createdAt + b.duration * 1000)) := by
  constructor
  · simp [ServerA.activeBubbles, List.mem_filter, hpriv, hmem, hnow]
  · simp [ServerB.validBubbles, List.mem_filter, hpriv, hmem, hnow]

/-- Witness for C4: a bubble created at 0 with duration 2 s is in both
snapshots at `now = 1000`. -/
theorem claim_C4_halfopen_window_witness :
    ((⟨"b", "t", "", "", "a", 0, 2, false⟩ : Bubble) ∈
        ServerA.activeBubbles 1000 [⟨"b", "t", "", "", "a", 0, 2, false⟩] ↔
      ((0 : Int) ≤ 1000 ∧ (1000 : Int) < 0 + 2 * 1000)) ∧
    ((⟨"b", "t", "", "", "a", 0, 2, false⟩ : Bubble) ∈
        ServerB.validBubbles 1000 [⟨"b", "t", "", "", "a", 0, 2, false⟩] ↔
      ((0 : Int) ≤ 1000 ∧ (1000 : Int) < 0 + 2 * 1000)) :=
  claim_C4_halfopen_window _ _ _ (by decide) (by decide) (by decide)

/-- C3 counterexample: a private bubble in the store is NOT included in the
`server.js` active snapshot (`GET /api/bubbles` drops private items), so the
claim that a private item is in every `activeSnapshot(now)` fails on
`src/server.js`. -/
theorem claim_C3_counterexample :
    (⟨"p0", "t", "", "", "a", 0, 10, true⟩ : Bubble) ∉
      ServerA.activeBubbles 0 [⟨"p0", "t", "", "", "a", 0, 10, true⟩] := by
  decide

/-- C3 (amended): a private bubble is excluded from every `server.js`
snapshot but included in every `part_000` snapshot; in both variants no
expiry timer is scheduled for it on publish, and the `server.js` sweep
always retains it (and broadcasts nothing), so no `bubbleExpired` is ever
produced for a private item. -/
theorem claim_C3_private_lifetime (now : Int) (bs : List Bubble) (b : Bubble)
    (hpriv : b.isPrivate = true) :
    b ∉ ServerA.activeBubbles now bs ∧
    (b ∈ bs → b ∈ ServerB.validBubbles now bs) ∧
    (∀ st : ServerA.State, b ∈ st.allBubbles →
      b ∈ (ServerA.sweep now st).1.allBubbles) ∧
    (∀ (st : ServerA.State) (pubNow : Int) (rand : String),
      (ServerA.publishBubble b pubNow rand st).2.2 = []) ∧
    (∀ st : ServerB.State, (ServerB.publishBubble b st).2.2 = []) ∧
    (∀ st : ServerA.State, (ServerA.sweep now st).2 = []) := by
  refine ⟨?_, ?_, ?_, ?_, ?_, fun _ => rfl⟩
  · simp [ServerA.activeBubbles, List.mem_filter, hpriv]
  · intro hmem
    simp [ServerB.validBubbles, List.mem_filter, hpriv, hmem]
  · intro st hmem
    simp [ServerA.sweep, List.mem_filter, hpriv, hmem]
  · intro st pubNow rand
    simp [ServerA.publishBubble, hpriv]
  · intro st
    simp [ServerB.publishBubble, hpriv]

/-- Witness for C3 (amended), at a concrete private bubble. -/
theorem claim_C3_private_lifetime_witness :
    (⟨"p0", "t", "", "", "a", 0, 10, true⟩ : Bubble) ∉
      ServerA.activeBubbles 7 [⟨"p0", "t", "", "", "a", 0, 10, true⟩] ∧
    (⟨"p0", "t", "", "", "a", 0, 10, true⟩ : Bubble) ∈
      ServerB.validBubbles 7 [⟨"p0", "t", "", "", "a", 0, 10, true⟩] ∧
    (⟨"p0", "t", "", "", "a", 0, 10, true⟩ : Bubble) ∈
      (ServerA.sweep 7 ⟨[], [⟨"p0", "t", "", "", "a", 0, 10, true⟩], [], []⟩).1.allBubbles ∧
    (ServerA.publishBubble ⟨"p0", "t", "", "", "a", 0, 10, true⟩ 3 "r"
      ⟨[], [], [], []⟩).2.2 = [] ∧
    (ServerB.publishBubble ⟨"p0", "t", "", "", "a", 0, 10, true⟩
      ⟨[], [], [], []⟩).2.2 = [] := by
  have h := claim_C3_private_lifetime 7 [⟨"p0", "t", "", "", "a", 0, 10, true⟩]
    ⟨"p0", "t", "", "", "a", 0, 10, true⟩ (by decide)
  exact ⟨h.1, h.2.1 (by decide), h.2.2.1 _ (by decide), h.2.2.2.1 _ 3 "r",
    h.2.2.2.2.1 _⟩

/-- C5 counterexample: in `part_000`, `publishBubble` stores the
client-supplied object verbatim — the stored item keeps the client-chosen
identifier and creation timestamp, so the server does not assign them. -/
theorem claim_C5_counterexample :
    ((ServerB.publishBubble ⟨"client-id", "t", "", "", "a", 42, 5, false⟩
        ⟨[], [], [], []⟩).1.allBubbles.map Bubble.id = ["client-id"]) ∧
    ((ServerB.publishBubble ⟨"client-id", "t", "", "", "a", 42, 5, false⟩
        ⟨[], [], [], []⟩).1.allBubbles.map Bubble.createdAt = [42]) := by
  decide

/-- C5 (amended): in `server.js` the stored bubble's identifier and creation
time are assigned server-side (overwriting any client-supplied values), the
bubble is appended to the store and broadcast to all connections; in
`part_000` the client-supplied object is appended and broadcast verbatim,
with no server-side assignment. -/
theorem claim_C5_publish_assignment :
    (∀ (bd : Bubble) (now : Int) (rand : String) (st : ServerA.State),
      (ServerA.publishBubble bd now rand st).1.allBubbles =
        st.allBubbles ++
          [{ bd with id := ServerA.genId now rand, createdAt := now }] ∧
      (ServerA.publishBubble bd now rand st).2.1 =
        [ServerA.Emit.all (.newBubble
          { bd with id := ServerA.genId now rand, createdAt := now })] ∧
      (ServerA.publishBubble bd now rand st).1.onlineUsers = st.onlineUsers ∧
      (ServerA.publishBubble bd now rand st).1.chatrooms = st.chatrooms) ∧
    (∀ (bd : Bubble) (st : ServerB.State),
      (ServerB.publishBubble bd st).1.allBubbles = st.allBubbles ++ [bd] ∧
      (ServerB.publishBubble bd st).2.1 =
        [ServerB.Emit.all (.newBubble bd)]) := by
  exact ⟨fun bd now rand st => ⟨rfl, rfl, rfl, rfl⟩,
    fun bd st => ⟨rfl, rfl⟩⟩

/-- C1 counterexample: the `server.js` periodic sweep removes an expired
non-private bubble from the store yet broadcasts nothing — no
`bubbleExpired` event is emitted on the sweep path, so the sweep removal is
not accompanied by exactly one `contentExpired` broadcast. -/
theorem claim_C1_counterexample :
    ((ServerA.sweep 5000
        ⟨[], [⟨"b0", "t", "", "", "a", 0, 1, false⟩], [], []⟩).1.allBubbles
      = []) ∧
    ((ServerA.sweep 5000
        ⟨[], [⟨"b0", "t", "", "", "a", 0, 1, false⟩], [], []⟩).2 = []) := by
  decide

/-- C1 (amended): in `server.js`, removal of a bubble happens at most once:
firing the expiry timer for an identifier that is absent is a no-op that
emits nothing; firing it while the identifier is present removes one item
and broadcasts exactly one `bubbleExpired` carrying that identifier; the
periodic sweep never broadcasts anything; and after a sweep whose
observation time is past the expiry of every bubble carrying the
identifier, the timer is a no-op emitting nothing. -/
theorem claim_C1_removal_once :
    (∀ (st : ServerA.State) (id : String),
      (∀ b ∈ st.allBubbles, b.id ≠ id) →
      ServerA.timerFire id st = (st, [])) ∧
    (∀ (st : ServerA.State) (id : String),
      (∃ b ∈ st.allBubbles, b.id = id) →
      (ServerA.timerFire id st).2 = [ServerA.Emit.all (.bubbleExpired id)] ∧
      (ServerA.timerFire id st).1.allBubbles.length + 1 =
        st.allBubbles.length) ∧
    (∀ (now : Int) (st : ServerA.State), (ServerA.sweep now st).2 = []) ∧
    (∀ (now : Int) (st : ServerA.State) (id : String),
      (∀ b ∈ st.allBubbles, b.id = id →
        (b.isPrivate = false ∧ b.createdAt + b.duration * 1000 ≤ now)) →
      ServerA.timerFire id (ServerA.sweep now st).1 =
        ((ServerA.sweep now st).1, [])) := by
  have habsent : ∀ (st : ServerA.State) (id : String),
      (∀ b ∈ st.allBubbles, b.id ≠ id) →
      ServerA.timerFire id st = (st, []) := by
    intro st id h
    have hnone : st.allBubbles.findIdx? (fun b => b.id = id) = none := by
      rw [List.findIdx?_eq_none_iff]
      intro x hx
      simpa using h x hx
    simp [ServerA.timerFire, hnone]
  refine ⟨habsent, ?_, fun _ _ => rfl, ?_⟩
  · intro st id h
    have hsome : (st.allBubbles.findIdx? (fun b => b.id = id)).isSome := by
      apply findIdx?_isSome_of_mem
      obtain ⟨b, hb, hid⟩ := h
      exact ⟨b, hb, by simp [hid]⟩
    obtain ⟨i, hi⟩ := Option.isSome_iff_exists.mp hsome
    have hbound := findIdx?_some_bound (fun b => decide (b.id = id))
      st.allBubbles 0 i hi
    constructor
    · simp [ServerA.timerFire, hi]
    · simp only [ServerA.timerFire, hi, List.length_eraseIdx]
      rw [if_pos (by omega)]
      have hpos : 0 < st.allBubbles.length := by omega
      omega
  · intro now st id h
    apply habsent
    intro b hb
    simp only [ServerA.sweep] at hb
    rw [List.mem_filter] at hb
    obtain ⟨hmem, hkeep⟩ := hb
    intro hid
    obtain ⟨hpriv, hexp⟩ := h b hmem hid
    rw [hpriv] at hkeep
    simp at hkeep
    omega

/-- Witness for C1 (amended): the timer on an empty store is a no-op; the
timer on a store holding the bubble emits one `bubbleExpired` and removes
it; and after the sweep has removed an expired bubble, its timer is a
no-op. -/
theorem claim_C1_removal_once_witness :
    ServerA.timerFire "x" ⟨[], [], [], []⟩ = (⟨[], [], [], []⟩, []) ∧
    ((ServerA.timerFire "b0"
        ⟨[], [⟨"b0", "t", "", "", "a", 0, 1, false⟩], [], []⟩).2 =
      [ServerA.Emit.all (.bubbleExpired "b0")] ∧
     (ServerA.timerFire "b0"
        ⟨[], [⟨"b0", "t", "", "", "a", 0, 1, false⟩], [], []⟩).1.allBubbles.length
        + 1 = 1) ∧
    ServerA.timerFire "b0"
        (ServerA.sweep 5000
          ⟨[], [⟨"b0", "t", "", "", "a", 0, 1, false⟩], [], []⟩).1 =
      ((ServerA.sweep 5000
          ⟨[], [⟨"b0", "t", "", "", "a", 0, 1, false⟩], [], []⟩).1, []) := by
  refine ⟨claim_C1_removal_once.1 _ "x" (by decide),
    ?_,
    claim_C1_removal_once.2.2.2 5000 _ "b0" (by decide)⟩
  exact claim_C1_removal_once.2.1
    ⟨[], [⟨"b0", "t", "", "", "a", 0, 1, false⟩], [], []⟩ "b0" (by decide)

/-- C2 counterexample: in `server.js` the presence registry is keyed by
`socket.id`, so announcing participant `p` from connection `s1` and then
announcing the same `p` from a new connection `s2` yields TWO registry
records — the presence count changes from 1 to 2 instead of staying
unchanged. -/
theorem claim_C2_counterexample :
    ((ServerA.userJoin "s1" ⟨"p", "n", "a", "s"⟩ 0
        ⟨[], [], [], []⟩).1.onlineUsers.length = 1) ∧
    ((ServerA.userJoin "s2" ⟨"p", "n", "a", "s"⟩ 1
        (ServerA.userJoin "s1" ⟨"p", "n", "a", "s"⟩ 0
          ⟨[], [], [], []⟩).1).1.onlineUsers.length = 2) := by
  decide

/-- C2 (amended): in `part_000` the registry is keyed by the participant
identifier, so re-announcing an already-present identifier from a new
connection overwrites the record (presence count unchanged), rebinding it
to the new connection — a subsequent `friendMessage` to that identifier is
delivered to the new connection's socket; in `server.js` the registry is
keyed by the connection identifier, so a second announce of the same
participant from a fresh connection adds a record and increments the
count. -/
theorem claim_C2_rebinding :
    (∀ (st : ServerB.State) (sid2 : String) (ud : UserData),
      (alGet st.onlineUsers ud.id).isSome →
      ((ServerB.userJoin sid2 ud st).1.onlineUsers.length =
        st.onlineUsers.length ∧
       alGet (ServerB.userJoin sid2 ud st).1.onlineUsers ud.id =
        some ⟨ud, sid2⟩ ∧
       (∀ (senderUid msg : String) (now : Int) (sUser : ServerB.User),
         alGet (ServerB.userJoin sid2 ud st).1.onlineUsers senderUid =
            some sUser →
         (ServerB.friendMessage (some senderUid) ud.id msg now
            (ServerB.userJoin sid2 ud st).1).2 =
          [ServerB.Emit.toConn sid2 (.friendMessage
            ⟨senderUid, ud.id, sUser.data.nickname, sUser.data.avatar,
             msg, now⟩)]))) ∧
    (∀ (st : ServerA.State) (sid2 : String) (ud : UserData) (now : Int),
      alGet st.onlineUsers sid2 = none →
      (ServerA.userJoin sid2 ud now st).1.onlineUsers.length =
        st.onlineUsers.length + 1) := by
  constructor
  · intro st sid2 ud hsome
    have hst' : (ServerB.userJoin sid2 ud st).1.onlineUsers =
        alSet st.onlineUsers ud.id ⟨ud, sid2⟩ := rfl
    refine ⟨?_, ?_, ?_⟩
    · rw [hst']
      exact alSet_length_of_isSome _ _ _ hsome
    · rw [hst']
      exact alGet_alSet_self _ _ _
    · intro senderUid msg now sUser hsender
      rw [hst'] at hsender
      simp only [ServerB.friendMessage, hst', hsender, alGet_alSet_self]
  · intro st sid2 ud now hnone
    have hst' : (ServerA.userJoin sid2 ud now st).1.onlineUsers =
        alSet st.onlineUsers sid2 ⟨ud, sid2, now⟩ := rfl
    rw [hst']
    exact alSet_length_of_none _ _ _ hnone

/-- Witness for C2 (amended): participant `p` announced from `s1`, then
re-announced from `s2`; the count stays 1, the record is rebound to `s2`,
and a direct message to `p` is delivered to `s2`; on the `server.js` side a
join from a fresh socket grows the registry. -/
theorem claim_C2_rebinding_witness :
    ((ServerB.userJoin "s2" ⟨"p", "n", "a", "s"⟩
        ⟨[("p", ⟨⟨"p", "n", "a", "s"⟩, "s1"⟩)], [], [], []⟩).1.onlineUsers.length
      = 1) ∧
    (alGet (ServerB.userJoin "s2" ⟨"p", "n", "a", "s"⟩
        ⟨[("p", ⟨⟨"p", "n", "a", "s"⟩, "s1"⟩)], [], [], []⟩).1.onlineUsers "p"
      = some ⟨⟨"p", "n", "a", "s"⟩, "s2"⟩) ∧
    ((ServerB.friendMessage (some "p") "p" "hi" 9
        (ServerB.userJoin "s2" ⟨"p", "n", "a", "s"⟩
          ⟨[("p", ⟨⟨"p", "n", "a", "s"⟩, "s1"⟩)], [], [], []⟩).1).2 =
      [ServerB.Emit.toConn "s2" (.friendMessage
        ⟨"p", "p", "n", "a", "hi", 9⟩)]) ∧
    ((ServerA.userJoin "s2" ⟨"p", "n", "a", "s"⟩ 1
        ⟨[("s1", ⟨⟨"p", "n", "a", "s"⟩, "s1", 0⟩)], [], [], []⟩).1.onlineUsers.length
      = 2) := by
  have h := claim_C2_rebinding.1
    ⟨[("p", ⟨⟨"p", "n", "a", "s"⟩, "s1"⟩)], [], [], []⟩ "s2"
    ⟨"p", "n", "a", "s"⟩ (by decide)
  refine ⟨?_, h.2.1, h.2.2 "p" "hi" 9 ⟨⟨"p", "n", "a", "s"⟩, "s2"⟩ (by decide),
    claim_C2_rebinding.2 ⟨[("s1", ⟨⟨"p", "n", "a", "s"⟩, "s1", 0⟩)], [], [], []⟩
      "s2" ⟨"p", "n", "a", "s"⟩ 1 (by decide)⟩
  have h1 := h.1
  simpa using h1

set_option maxRecDepth 100000 in
/-- C6 counterexample: in `part_000` the room history has no size cap —
posting 101 sequential messages to one room (announced user `u`, room `r`)
leaves 101 records in its history, not 100. -/
theorem claim_C6_counterexample :
    (alGet ((List.range 101).foldl
        (fun st i => (ServerB.chatroomMessage (some "u") "r" (toString i) 0 st).1)
        ⟨[("u", ⟨⟨"u", "n", "a", "s"⟩, "s1"⟩)], [], [("r", ⟨[], []⟩)], []⟩).chatrooms
      "r").map (fun r => r.messages.length) = some 101 := by
  decide

/-- C6 (amended): in `server.js` a room's history is capped at 100 records
with FIFO eviction (posting into a full room drops the oldest record); in
`part_000` `chatroomMessage` appends without any cap, so the history grows
unboundedly. -/
theorem claim_C6_history_cap :
    (∀ (rid msg nick t : String) (st : ServerA.State) (room : ServerA.Room),
      alGet st.chatrooms rid = some room →
      ∃ ms : List ServerA.Msg,
        alGet (ServerA.chatroomMessage rid msg nick t st).1.chatrooms rid =
          some { room with messages := ms } ∧
        (room.messages.length ≤ 100 → ms.length ≤ 100) ∧
        (room.messages.length = 100 →
          ms = room.messages.tail ++ [⟨nick, msg, t⟩])) ∧
    (∀ (uid cid message : String) (now : Int) (st : ServerB.State)
       (user : ServerB.User) (room : ServerB.Room),
      alGet st.onlineUsers uid = some user →
      alGet st.chatrooms cid = some room →
      alGet (ServerB.chatroomMessage (some uid) cid message now st).1.chatrooms
          cid =
        some { room with messages := room.messages ++
          [⟨user.data.nickname, user.data.avatar, message, now⟩] }) := by
  constructor
  · intro rid msg nick t st room hroom
    refine ⟨if (room.messages ++ [(⟨nick, msg, t⟩ : ServerA.Msg)]).length > 100
        then (room.messages ++ [(⟨nick, msg, t⟩ : ServerA.Msg)]).tail
        else room.messages ++ [(⟨nick, msg, t⟩ : ServerA.Msg)], ?_, ?_, ?_⟩
    · simp only [ServerA.chatroomMessage, hroom]
      exact alGet_alSet_self _ _ _
    · intro hlen
      by_cases hc : (room.messages ++ [(⟨nick, msg, t⟩ : ServerA.Msg)]).length > 100
      · rw [if_pos hc]
        rw [List.length_tail]
        simp only [List.length_append, List.length_cons, List.length_nil]
        omega
      · rw [if_neg hc]
        simp only [List.length_append, List.length_cons,
          List.length_nil] at hc ⊢
        omega
    · intro hlen
      have hc : (room.messages ++ [(⟨nick, msg, t⟩ : ServerA.Msg)]).length > 100 := by
        simp [List.length_append, hlen]
      rw [if_pos hc]
      cases hms : room.messages with
      | nil => rw [hms] at hlen; simp at hlen
      | cons a l => simp
  · intro uid cid message now st user room huser hroom
    simp only [ServerB.chatroomMessage, Option.some_bind, huser, hroom]
    exact alGet_alSet_self _ _ _

/-- Witness for C6 (amended): posting into a full 100-record `server.js`
room keeps 100 records, evicting the oldest first; posting into a
`part_000` room with one record appends a second. -/
theorem claim_C6_history_cap_witness :
    (∃ ms : List ServerA.Msg,
      alGet (ServerA.chatroomMessage "r" "m" "nick" "tt"
          ⟨[], [], [("r", ⟨"r", [], List.replicate 100 ⟨"n", "c", "t"⟩⟩)],
           []⟩).1.chatrooms "r" =
        some { id := "r", users := [],
               messages := ms } ∧
      ((List.replicate 100 (⟨"n", "c", "t"⟩ : ServerA.Msg)).length ≤ 100 →
        ms.length ≤ 100) ∧
      ((List.replicate 100 (⟨"n", "c", "t"⟩ : ServerA.Msg)).length = 100 →
        ms = (List.replicate 100 (⟨"n", "c", "t"⟩ : ServerA.Msg)).tail ++
          [⟨"nick", "m", "tt"⟩])) ∧
    (alGet (ServerB.chatroomMessage (some "u") "r" "m" 5
        ⟨[("u", ⟨⟨"u", "n", "a", "s"⟩, "s1"⟩)], [],
         [("r", ⟨[⟨"n0", "a0", "c0", 0⟩], []⟩)], []⟩).1.chatrooms "r" =
      some ⟨[⟨"n0", "a0", "c0", 0⟩, ⟨"n", "a", "m", 5⟩], []⟩) :=
  ⟨claim_C6_history_cap.1 "r" "m" "nick" "tt"
      ⟨[], [], [("r", ⟨"r", [], List.replicate 100 (⟨"n", "c", "t"⟩ : ServerA.Msg)⟩)],
       []⟩
      ⟨"r", [], List.replicate 100 (⟨"n", "c", "t"⟩ : ServerA.Msg)⟩ (by decide),
   claim_C6_history_cap.2 "u" "r" "m" 5
      ⟨[("u", ⟨⟨"u", "n", "a", "s"⟩, "s1"⟩)], [],
       [("r", ⟨[⟨"n0", "a0", "c0", 0⟩], []⟩)], []⟩
      ⟨⟨"u", "n", "a", "s"⟩, "s1"⟩ ⟨[⟨"n0", "a0", "c0", 0⟩], []⟩
      (by decide) (by decide)⟩

/-- C7 counterexample: in `part_000`, a direct message from online sender
`u1` (socket `s1`) to online friend `u2` (socket `s2`) is delivered to the
target's socket only — the record is NOT echoed back to the sender's own
connection. -/
theorem claim_C7_counterexample :
    ((ServerB.friendMessage (some "u1") "u2" "hi" 9
        ⟨[("u1", ⟨⟨"u1", "n1", "a1", "s"⟩, "s1"⟩),
          ("u2", ⟨⟨"u2", "n2", "a2", "s"⟩, "s2"⟩)], [], [], []⟩).2 =
      [ServerB.Emit.toConn "s2" (.friendMessage
        ⟨"u1", "u2", "n1", "a1", "hi", 9⟩)]) ∧
    (ServerB.Emit.toConn "s1" (.friendMessage
        ⟨"u1", "u2", "n1", "a1", "hi", 9⟩) ∉
      (ServerB.friendMessage (some "u1") "u2" "hi" 9
        ⟨[("u1", ⟨⟨"u1", "n1", "a1", "s"⟩, "s1"⟩),
          ("u2", ⟨⟨"u2", "n2", "a2", "s"⟩, "s2"⟩)], [], [], []⟩).2) := by
  decide

/-- C7 (amended): `server.js` emits the record to the Socket.IO room named
by the target identifier (no registry lookup) and always echoes it to the
sender's connection, touching no store; `part_000` resolves the target via
the registry and, when the target is online, delivers to the target's
bound socket only — there is no echo to the sender — appends the record to
the canonical-pair conversation log, and leaves every other store
unchanged (nothing is queued for an offline target). -/
theorem claim_C7_direct_message :
    (∀ (senderSid targetUserId message nickname timeStr : String)
       (st : ServerA.State),
      ServerA.privateMessage senderSid targetUserId message nickname timeStr
          st =
        (st, [ServerA.Emit.toRoom targetUserId (.privateMessage
                ⟨senderSid, nickname, message, timeStr⟩),
              ServerA.Emit.toConn senderSid (.privateMessage
                ⟨senderSid, nickname, message, timeStr⟩)])) ∧
    (∀ (uid friendId message : String) (now : Int) (st : ServerB.State)
       (user : ServerB.User),
      alGet st.onlineUsers uid = some user →
      ((ServerB.friendMessage (some uid) friendId message now st).2 =
        (match alGet st.onlineUsers friendId with
         | some friend => [ServerB.Emit.toConn friend.socketId
             (.friendMessage ⟨uid, friendId, user.data.nickname,
               user.data.avatar, message, now⟩)]
         | none => [])) ∧
      (ServerB.friendMessage (some uid) friendId message now st).1.onlineUsers
        = st.onlineUsers ∧
      (ServerB.friendMessage (some uid) friendId message now st).1.chatrooms
        = st.chatrooms ∧
      (ServerB.friendMessage (some uid) friendId message now st).1.allBubbles
        = st.allBubbles ∧
      alGet (ServerB.friendMessage (some uid) friendId message now st).1.friendChats
          (ServerB.chatKey uid friendId) =
        some ((alGet st.friendChats (ServerB.chatKey uid friendId)).getD [] ++
          [⟨uid, friendId, user.data.nickname, user.data.avatar, message,
            now⟩])) := by
  constructor
  · intro senderSid targetUserId message nickname timeStr st
    rfl
  · intro uid friendId message now st user huser
    refine ⟨?_, ?_, ?_, ?_, ?_⟩ <;>
      simp only [ServerB.friendMessage, huser, alGet_alSet_self]

/-- Witness for C7 (amended): with sender `u1` online and target `u2`
online, the `part_000` emission goes to the target's socket and the log
gains the record. -/
theorem claim_C7_direct_message_witness :
    ((ServerB.friendMessage (some "u1") "u2" "hi" 9
        ⟨[("u1", ⟨⟨"u1", "n1", "a1", "s"⟩, "s1"⟩),
          ("u2", ⟨⟨"u2", "n2", "a2", "s"⟩, "s2"⟩)], [], [], []⟩).2 =
      (match alGet ([("u1", (⟨⟨"u1", "n1", "a1", "s"⟩, "s1"⟩ : ServerB.User)),
          ("u2", ⟨⟨"u2", "n2", "a2", "s"⟩, "s2"⟩)]) "u2" with
       | some friend => [ServerB.Emit.toConn friend.socketId
           (.friendMessage ⟨"u1", "u2", "n1", "a1", "hi", 9⟩)]
       | none => [])) ∧
    (ServerB.friendMessage (some "u1") "u2" "hi" 9
        ⟨[("u1", ⟨⟨"u1", "n1", "a1", "s"⟩, "s1"⟩),
          ("u2", ⟨⟨"u2", "n2", "a2", "s"⟩, "s2"⟩)], [], [], []⟩).1.onlineUsers =
      [("u1", ⟨⟨"u1", "n1", "a1", "s"⟩, "s1"⟩),
       ("u2", ⟨⟨"u2", "n2", "a2", "s"⟩, "s2"⟩)] ∧
    alGet (ServerB.friendMessage (some "u1") "u2" "hi" 9
        ⟨[("u1", ⟨⟨"u1", "n1", "a1", "s"⟩, "s1"⟩),
          ("u2", ⟨⟨"u2", "n2", "a2", "s"⟩, "s2"⟩)], [], [], []⟩).1.friendChats
        (ServerB.chatKey "u1" "u2") =
      some ((alGet ([] : List (String × List ServerB.FMsg))
          (ServerB.chatKey "u1" "u2")).getD [] ++
        [⟨"u1", "u2", "n1", "a1", "hi", 9⟩]) := by
  have h := claim_C7_direct_message.2 "u1" "u2" "hi" 9
    ⟨[("u1", ⟨⟨"u1", "n1", "a1", "s"⟩, "s1"⟩),
      ("u2", ⟨⟨"u2", "n2", "a2", "s"⟩, "s2"⟩)], [], [], []⟩
    ⟨⟨"u1", "n1", "a1", "s"⟩, "s1"⟩ (by decide)
  exact ⟨h.1, h.2.1, h.2.2.2.2⟩

/-- C9 counterexample: in `server.js`, a room message from a connection with
no presence binding at all (empty registry) into an existing room is NOT
dropped: the record — carrying the client-supplied nickname — is appended to
the room history and broadcast. -/
theorem claim_C9_counterexample :
    ((alGet (ServerA.chatroomMessage "r" "hi" "spoofed" "12:00"
        ⟨[], [], [("r", ⟨"r", ["sX"], []⟩)], []⟩).1.chatrooms "r").map
      ServerA.Room.messages = some [⟨"spoofed", "hi", "12:00"⟩]) ∧
    ((ServerA.chatroomMessage "r" "hi" "spoofed" "12:00"
        ⟨[], [], [("r", ⟨"r", ["sX"], []⟩)], []⟩).2 ≠ []) := by
  decide

/-- C9 (amended): `part_000` behaves as the claim says — an unresolved
sender is dropped silently (state unchanged, nothing emitted) and a
resolved sender's record carries the registry's nickname and avatar;
`server.js`, however, performs no identity resolution: it drops only when
the room does not exist, and the broadcast record carries the
client-supplied nickname. -/
theorem claim_C9_room_message_identity :
    (∀ (cid message : String) (now : Int) (st : ServerB.State),
      ServerB.chatroomMessage none cid message now st = (st, [])) ∧
    (∀ (uid cid message : String) (now : Int) (st : ServerB.State),
      alGet st.onlineUsers uid = none →
      ServerB.chatroomMessage (some uid) cid message now st = (st, [])) ∧
    (∀ (uid cid message : String) (now : Int) (st : ServerB.State)
       (user : ServerB.User),
      alGet st.onlineUsers uid = some user →
      (ServerB.chatroomMessage (some uid) cid message now st).2 =
        [ServerB.Emit.toRoom cid (.chatroomMessage
          ⟨user.data.nickname, user.data.avatar, message, now⟩)]) ∧
    (∀ (rid msg nick t : String) (st : ServerA.State),
      alGet st.chatrooms rid = none →
      ServerA.chatroomMessage rid msg nick t st = (st, [])) ∧
    (∀ (rid msg nick t : String) (st : ServerA.State) (room : ServerA.Room),
      alGet st.chatrooms rid = some room →
      (ServerA.chatroomMessage rid msg nick t st).2 =
        [ServerA.Emit.toRoom rid (.chatroomMessage ⟨nick, msg, t⟩)]) := by
  refine ⟨fun cid message now st => rfl, ?_, ?_, ?_, ?_⟩
  · intro uid cid message now st hnone
    simp only [ServerB.chatroomMessage, Option.some_bind, hnone]
  · intro uid cid message now st user huser
    simp only [ServerB.chatroomMessage, Option.some_bind, huser]
  · intro rid msg nick t st hnone
    simp only [ServerA.chatroomMessage, hnone]
  · intro rid msg nick t st room hroom
    simp only [ServerA.chatroomMessage, hroom]

/-- Witness for C9 (amended): an unbound `part_000` sender is dropped; a
bound sender's record uses the registry nickname; an unknown `server.js`
room drops; a known `server.js` room broadcasts the client nickname. -/
theorem claim_C9_room_message_identity_witness :
    (ServerB.chatroomMessage (some "ghost") "r" "hi" 3
        ⟨[], [], [("r", ⟨[], []⟩)], []⟩ =
      (⟨[], [], [("r", ⟨[], []⟩)], []⟩, [])) ∧
    ((ServerB.chatroomMessage (some "u") "r" "hi" 3
        ⟨[("u", ⟨⟨"u", "realNick", "a", "s"⟩, "s1"⟩)], [],
         [("r", ⟨[], []⟩)], []⟩).2 =
      [ServerB.Emit.toRoom "r" (.chatroomMessage
        ⟨"realNick", "a", "hi", 3⟩)]) ∧
    (ServerA.chatroomMessage "nowhere" "hi" "nick" "t" ⟨[], [], [], []⟩ =
      (⟨[], [], [], []⟩, [])) ∧
    ((ServerA.chatroomMessage "r" "hi" "clientNick" "t"
        ⟨[], [], [("r", ⟨"r", [], []⟩)], []⟩).2 =
      [ServerA.Emit.toRoom "r" (.chatroomMessage ⟨"clientNick", "hi", "t"⟩)]) := by
  refine ⟨claim_C9_room_message_identity.2.1 "ghost" "r" "hi" 3
      ⟨[], [], [("r", ⟨[], []⟩)], []⟩ (by decide),
    claim_C9_room_message_identity.2.2.1 "u" "r" "hi" 3
      ⟨[("u", ⟨⟨"u", "realNick", "a", "s"⟩, "s1"⟩)], [],
       [("r", ⟨[], []⟩)], []⟩ ⟨⟨"u", "realNick", "a", "s"⟩, "s1"⟩ (by decide),
    claim_C9_room_message_identity.2.2.2.1 "nowhere" "hi" "nick" "t"
      ⟨[], [], [], []⟩ (by decide),
    claim_C9_room_message_identity.2.2.2.2 "r" "hi" "clientNick" "t"
      ⟨[], [], [("r", ⟨"r", [], []⟩)], []⟩ ⟨"r", [], []⟩ (by decide)⟩

/-- The `disconnect` room loop of `server.js` in closed form: every room
containing the socket loses it and contributes one member-count emission,
in room order; other rooms pass through untouched. -/
theorem disconnectRooms_eq (sid : String) (rooms : List (String × ServerA.Room)) :
    ServerA.disconnectRooms sid rooms =
      (rooms.map (fun p =>
         if sid ∈ p.2.users then
           (p.1, { p.2 with users := setDelete p.2.users sid })
         else p),
       (rooms.filter (fun p => decide (sid ∈ p.2.users))).map
         (fun p => ServerA.Emit.toRoom p.1
           (.chatroomUserCount (setDelete p.2.users sid).length))) := by
  induction rooms with
  | nil => rfl
  | cons p rest ih =>
    obtain ⟨rid, room⟩ := p
    by_cases h : sid ∈ room.users
    · simp [ServerA.disconnectRooms, ih, h, List.filter_cons]
    · simp [ServerA.disconnectRooms, ih, h, List.filter_cons]

/-- C8 counterexample: in `part_000`, disconnecting the connection bound to
participant `u1` — a member of rooms `r1` and `r2` — leaves both rooms'
member lists untouched and emits no per-room member-count update, only the
global online count. -/
theorem claim_C8_counterexample :
    ((ServerB.disconnect (some "u1")
        ⟨[("u1", ⟨⟨"u1", "n", "a", "s"⟩, "s1"⟩)], [],
         [("r1", ⟨[], ["u1"]⟩), ("r2", ⟨[], ["u1"]⟩)], []⟩).1.chatrooms =
      [("r1", ⟨[], ["u1"]⟩), ("r2", ⟨[], ["u1"]⟩)]) ∧
    ((ServerB.disconnect (some "u1")
        ⟨[("u1", ⟨⟨"u1", "n", "a", "s"⟩, "s1"⟩)], [],
         [("r1", ⟨[], ["u1"]⟩), ("r2", ⟨[], ["u1"]⟩)], []⟩).2 =
      [ServerB.Emit.all (.onlineCount 0)]) := by
  decide

/-- C8 (amended): in `server.js`, a disconnect removes the socket from the
member set of every room that contained it, emits exactly one
member-count update per affected room (in room order) followed by the
global online count, deletes the socket's registry entry, and leaves
rooms that did not contain it untouched; in `part_000`, a disconnect only
deletes the bound participant's registry record and broadcasts the online
count — no room is touched and no member-count update is emitted. -/
theorem claim_C8_disconnect_cleanup :
    (∀ (sid : String) (st : ServerA.State),
      (ServerA.disconnect sid st).1.chatrooms =
        st.chatrooms.map (fun p =>
          if sid ∈ p.2.users then
            (p.1, { p.2 with users := setDelete p.2.users sid })
          else p) ∧
      (ServerA.disconnect sid st).1.onlineUsers =
        alErase st.onlineUsers sid ∧
      (ServerA.disconnect sid st).1.allBubbles = st.allBubbles ∧
      (ServerA.disconnect sid st).2 =
        (st.chatrooms.filter (fun p => decide (sid ∈ p.2.users))).map
          (fun p => ServerA.Emit.toRoom p.1
            (.chatroomUserCount (setDelete p.2.users sid).length)) ++
        [ServerA.Emit.all
          (.onlineCount (alErase st.onlineUsers sid).length)]) ∧
    (∀ (uid : String) (st : ServerB.State),
      (ServerB.disconnect (some uid) st).1.chatrooms = st.chatrooms ∧
      (ServerB.disconnect (some uid) st).1.friendChats = st.friendChats ∧
      (ServerB.disconnect (some uid) st).1.onlineUsers =
        alErase st.onlineUsers uid ∧
      (ServerB.disconnect (some uid) st).2 =
        [ServerB.Emit.all
          (.onlineCount (alErase st.onlineUsers uid).length)]) := by
  constructor
  · intro sid st
    refine ⟨?_, ?_, ?_, ?_⟩ <;>
      simp only [ServerA.disconnect, disconnectRooms_eq]
  · intro uid st
    exact ⟨rfl, rfl, rfl, rfl⟩
